import Mathlib

/-!
Verification development for the ReelSyntReel job-processing pipeline.

The definitions below are a shallow embedding of the Python sources:
  * processing.py      (synchronous orchestrator: generate_video and helpers)
  * video_tasks.py     (asynchronous task orchestrator: process_video_task and helpers)
  * text_to_audio.py   (speech synthesizer adapter: text_to_speech_file)

External effects (file existence, the TTS provider stream, the ffmpeg
subprocess, directory removal) are modelled by explicit oracle fields of a
JobInput record, and the observable on-disk state of one job by a JobState
record that each step transforms.  Python exceptions become an Except value
threaded through the orchestrator exactly where the sources raise and catch.
-/

/-- A single quote character, used when modelling Python repr output. -/
def squote : String := String.singleton (Char.ofNat 39)

/-- Python repr of a list of strings (as it appears in str(CalledProcessError)),
assuming none of the elements contains a quote character. -/
def pyListRepr (l : List String) : String :=
  "[" ++ String.intercalate ", " (l.map (fun s => squote ++ s ++ squote)) ++ "]"

/-- The characters removed by Python str.strip() with no arguments, restricted
to the ASCII whitespace characters (Python also strips some further Unicode
space characters, which never occur in the inputs modelled here). -/
def pyIsSpace (c : Char) : Bool :=
  c = ' ' || c = '\t' || c = '\n' || c = '\r' || c = '\x0b' || c = '\x0c'

/-- Model of Python str.strip(): remove leading and trailing whitespace. -/
def pyStrip (s : String) : String :=
  ⟨((s.data.dropWhile pyIsSpace).reverse.dropWhile pyIsSpace).reverse⟩

/-- A string of n letters a, used to build concrete boundary-length inputs. -/
def mkA (n : Nat) : String := ⟨List.replicate n 'a'⟩

/-- Whether the second character list is a leading segment of the first. -/
def leadsWith : List Char → List Char → Bool
  | _, [] => true
  | [], _ :: _ => false
  | c :: cs, p :: ps => c = p && leadsWith cs ps

/-- Whether pat occurs as a contiguous segment of l. -/
def hasSub : List Char → List Char → Bool
  | [], pat => pat.isEmpty
  | c :: cs, pat => leadsWith (c :: cs) pat || hasSub cs pat

/-- Whether pat occurs as a contiguous substring of s. -/
def strContainsSub (s pat : String) : Bool :=
  hasSub s.data pat.data

/- ### Constants from processing.py / video_tasks.py -/

/-- MAX_TEXT_LENGTH from processing.py line 15 and video_tasks.py line 18. -/
def MAX_TEXT_LENGTH : Nat := 1500

/-- DEFAULT_VOICE_ID from processing.py line 14 and video_tasks.py line 17. -/
def DEFAULT_VOICE_ID : String := "pNInz6obpgDQGcFmaJgB"

/-- Relative path of the concat input list inside the job directory. -/
def inputTxtPath (jobId : String) : String :=
  "user_uploads/" ++ jobId ++ "/input.txt"

/-- Relative path of the synthesized narration artifact inside the job directory. -/
def audioMp3Path (jobId : String) : String :=
  "user_uploads/" ++ jobId ++ "/audio.mp3"

/-- Relative path of a music file (a glob hit music.*) inside the job directory. -/
def musicPathStr (jobId : String) (name : String) : String :=
  "user_uploads/" ++ jobId ++ "/" ++ name

/-- Relative path of the rendered reel in the public artifact store. -/
def outputMp4Path (jobId : String) : String :=
  "static/reels/" ++ jobId ++ ".mp4"

/-- Relative path of the thumbnail in the public artifact store. -/
def thumbnailJpgPath (jobId : String) : String :=
  "static/thumbnails/" ++ jobId ++ ".jpg"

/- ### The ffmpeg command built by _create_reel
     (processing.py lines 53-90, identical in video_tasks.py lines 83-130) -/

/-- video_filter from _create_reel: scale to fit 1080x1920 then pad centered. -/
def video_filter : String :=
  "scale=1080:1920:force_original_aspect_ratio=decrease,pad=1080:1920:(ow-iw)/2:(oh-ih)/2:black"

/-- music_only_filter from _create_reel. -/
def music_only_filter : String := "[1:a]volume=0.3[aout]"

/-- mixed_audio_filter from _create_reel. -/
def mixed_audio_filter : String :=
  "[1:a]aformat=fltp,volume=1.0[a1];[2:a]aformat=fltp,volume=0.15[a2];[a1][a2]amix=inputs=2:duration=first[aout]"

/-- The full argument list assembled by _create_reel before subprocess.run.
audioExists models audio_mp3_path.exists(); musicPath is the first glob hit
of music.* (none when the glob is empty) and musicExists models
music_path.exists() on that hit. -/
def create_reel_command (inputTxt audioMp3 : String) (musicPath : Option String)
    (audioExists musicExists : Bool) (outputMp4 : String) : List String :=
  let command := ["ffmpeg", "-f", "concat", "-safe", "0", "-i", inputTxt]
  let hasVoiceover := audioExists
  let hasMusic := musicPath.isSome && musicExists
  let command := if hasVoiceover then command ++ ["-i", audioMp3] else command
  let command := if hasMusic then command ++ ["-i", musicPath.getD ""] else command
  let command :=
    if hasVoiceover && hasMusic then
      command ++ ["-filter_complex", video_filter ++ "," ++ mixed_audio_filter,
        "-map", "0:v", "-map", "[aout]"]
    else if hasVoiceover then
      command ++ ["-vf", video_filter, "-map", "0:v", "-map", "1:a"]
    else if hasMusic then
      command ++ ["-filter_complex",
        "[0:v]" ++ video_filter ++ "[vout];" ++ music_only_filter,
        "-map", "[vout]", "-map", "[aout]"]
    else
      command ++ ["-vf", video_filter, "-map", "0:v"]
  command ++ ["-c:v", "libx264", "-c:a", "aac", "-r", "30",
    "-pix_fmt", "yuv420p", "-shortest", "-y", outputMp4]

/- ### Spec-side composition plan (written from the words of spec.md section 4.3,
     for comparison with create_reel_command in claim C1) -/

/-- Spec: narration is mixed at full gain. -/
def specNarrationGain : String := "1.0"

/-- Spec: music under narration is attenuated to gain 0.15. -/
def specMusicMixGain : String := "0.15"

/-- Spec: music alone is attenuated to gain 0.3. -/
def specMusicOnlyGain : String := "0.3"

/-- Spec: scale to fit within 1080x1920 preserving aspect ratio, then pad to
exactly 1080x1920 with centered black bars. -/
def specVideoFilter : String :=
  "scale=1080:1920:force_original_aspect_ratio=decrease,pad=1080:1920:(ow-iw)/2:(oh-ih)/2:black"

/-- Spec: narration gain 1.0 and music gain 0.15 mixed to one track with
duration equal to the first input. -/
def specMixedAudioFilter : String :=
  "[1:a]aformat=fltp,volume=" ++ specNarrationGain ++
  "[a1];[2:a]aformat=fltp,volume=" ++ specMusicMixGain ++
  "[a2];[a1][a2]amix=inputs=2:duration=first[aout]"

/-- Spec: music only, attenuated to gain 0.3. -/
def specMusicOnlyFilter : String :=
  "[1:a]volume=" ++ specMusicOnlyGain ++ "[aout]"

/-- The four cases of spec.md section 4.3, as filter/mapping arguments. -/
def specPlanArgs (hasNarration hasMusic : Bool) : List String :=
  match hasNarration, hasMusic with
  | true, true =>
      ["-filter_complex", specVideoFilter ++ "," ++ specMixedAudioFilter,
        "-map", "0:v", "-map", "[aout]"]
  | true, false =>
      ["-vf", specVideoFilter, "-map", "0:v", "-map", "1:a"]
  | false, true =>
      ["-filter_complex", "[0:v]" ++ specVideoFilter ++ "[vout];" ++ specMusicOnlyFilter,
        "-map", "[vout]", "-map", "[aout]"]
  | false, false =>
      ["-vf", specVideoFilter, "-map", "0:v"]

/-- The whole rendering command as described by the spec: concat input list,
the optional narration and music inputs, the four-case plan of section 4.3,
fixed encoding parameters and the shortest-input cap. -/
def specCommand (inputTxt audioMp3 : String) (musicPath : Option String)
    (hasNarration hasMusic : Bool) (outputMp4 : String) : List String :=
  ["ffmpeg", "-f", "concat", "-safe", "0", "-i", inputTxt]
  ++ (if hasNarration then ["-i", audioMp3] else [])
  ++ (if hasMusic then ["-i", musicPath.getD ""] else [])
  ++ specPlanArgs hasNarration hasMusic
  ++ ["-c:v", "libx264", "-c:a", "aac", "-r", "30",
    "-pix_fmt", "yuv420p", "-shortest", "-y", outputMp4]

/- ### Python exceptions, as raised and caught by the pipeline -/

/-- The Python exceptions that flow through the orchestrators. -/
inductive PyExc
  | valueError (msg : String)
  | runtimeError (msg : String)
  | apiError (msg : String)
  | calledProcessError (cmd : List String) (returncode : Nat) (stderr : String)
  | osError (msg : String)
deriving Repr, DecidableEq

/-- ValueError message raised by _text_to_audio for over-long text. -/
def tooLongMsg : String :=
  "Text exceeds the maximum length of " ++ toString MAX_TEXT_LENGTH ++ " characters."

/-- ValueError message raised by _text_to_audio for profane text. -/
def profaneMsg : String := "Inappropriate content detected in text."

/-- RuntimeError message raised by the synchronous _text_to_audio when
text_to_speech_file returns False. -/
def synthFailedMsg : String := "Failed to generate speech file."

/-- Model of Python str(e): ValueError, RuntimeError, ApiError and OSError
carry their message; str(subprocess.CalledProcessError) names the command and
the exit status but does not include the captured stderr. -/
def pyExcStr : PyExc → String
  | .valueError m => m
  | .runtimeError m => m
  | .apiError m => m
  | .calledProcessError cmd rc _ =>
      "Command " ++ squote ++ pyListRepr cmd ++ squote ++
        " returned non-zero exit status " ++ toString rc ++ "."
  | .osError m => m

/- ### Oracles for the external effects of one job -/

/-- One event while iterating the TTS provider response stream inside the
write loop of text_to_speech_file: a data chunk, an ApiError raised by the
stream, or an IOError raised by the file write. -/
inductive StreamItem
  | data (chunk : String)
  | apiError
  | ioError
deriving Repr, DecidableEq

/-- Behavior of one subprocess.run of the rendering command. -/
inductive RenderResult
  | success
  | nonzeroExit (returncode : Nat) (stderr : String)
  | launchFailure (message : String)
deriving Repr, DecidableEq

/-- Behavior of one subprocess.run of the thumbnail command: success, a
non-zero exit (raising CalledProcessError with the captured stderr), or a
failure to launch the process at all (raising OSError). -/
inductive ThumbResult
  | success
  | nonzeroExit (stderr : String)
  | launchFailure (message : String)
deriving Repr, DecidableEq

/-- Whether the thumbnail invocation raises an exception that
_create_thumbnail does not catch (its except clause covers only
CalledProcessError, so a launch failure propagates). -/
def thumbRaises : ThumbResult → Bool
  | .launchFailure _ => true
  | _ => false

/-- The externally determined inputs and effect outcomes of one job.
descFile / voiceFile / musicFile are the contents (or absence) of desc.txt,
voice.txt and the first music.* glob hit in the job directory; profane is the
better_profanity classifier; synthStream is the TTS provider behavior (error
raised at the convert call, or the stream of iteration events); renderResult,
thumbResult and cleanupOk are the outcomes of the ffmpeg render, the ffmpeg
thumbnail extraction and shutil.rmtree. -/
structure JobInput where
  jobId : String
  descFile : Option String
  voiceFile : Option String
  musicFile : Option String
  profane : String → Bool
  synthStream : Except String (List StreamItem)
  renderResult : RenderResult
  thumbResult : ThumbResult
  cleanupOk : Bool

/-- The observable on-disk state of one job, plus an instrumentation trace of
which externally visible operations ran (moderation evaluations, synthesis
invocations with their arguments, render commands, thumbnail attempts). -/
structure JobState where
  jobDirExists : Bool
  audioFile : Option String
  videoArtifact : Bool
  thumbArtifact : Bool
  moderatedTexts : List String
  synthCalls : List (String × String)
  renderCalls : List (List String)
  thumbCalls : Nat
deriving Repr, DecidableEq

/-- A freshly produced job directory: it exists and no audio artifact or
public artifact has been produced yet. -/
def initState : JobState :=
  { jobDirExists := true, audioFile := none, videoArtifact := false,
    thumbArtifact := false, moderatedTexts := [], synthCalls := [],
    renderCalls := [], thumbCalls := 0 }

/- ### text_to_audio.py: text_to_speech_file -/

/-- The write loop of text_to_speech_file: iterate the stream, appending each
non-empty chunk to the file, stopping at the first ApiError or IOError.
Returns the content written so far and whether the loop finished cleanly. -/
def runWriteLoop : List StreamItem → String → String × Bool
  | [], acc => (acc, true)
  | .data c :: rest, acc =>
      if c = "" then runWriteLoop rest acc else runWriteLoop rest (acc ++ c)
  | .apiError :: _, acc => (acc, false)
  | .ioError :: _, acc => (acc, false)

/-- Model of text_to_speech_file (text_to_audio.py lines 18-55).  The convert
call happens outside the try block, so a provider error raised at call time
propagates as an uncaught ApiError; otherwise the destination file is opened
(created empty) and the stream is written chunk by chunk; an ApiError or
IOError during the loop is caught and the function returns False, leaving on
disk exactly the chunks written before the error.  The synthesis invocation
and its (text, voiceId) arguments are recorded in the trace. -/
def text_to_speech_file (text voiceId : String)
    (stream : Except String (List StreamItem)) (st : JobState) :
    Except PyExc Bool × JobState :=
  let st := { st with synthCalls := st.synthCalls ++ [(text, voiceId)] }
  match stream with
  | .error m => (.error (.apiError m), st)
  | .ok items =>
      let r := runWriteLoop items ""
      (.ok r.2, { st with audioFile := some r.1 })

/- ### Content moderation (the two checks of _text_to_audio) -/

/-- Result of the two moderation checks. -/
inductive ModerationCheck
  | allowed
  | tooLong
  | profaneContent
deriving Repr, DecidableEq

/-- The moderation checks of _text_to_audio (processing.py lines 32-36,
video_tasks.py lines 62-66): length bound first, then the profanity
classifier. -/
def moderate (profane : String → Bool) (text : String) : ModerationCheck :=
  if text.length > MAX_TEXT_LENGTH then .tooLong
  else if profane text then .profaneContent
  else .allowed

/-- The voice id passed to synthesis: the stripped content of voice.txt when
the file exists, and DEFAULT_VOICE_ID when reading it raises
FileNotFoundError (processing.py lines 38-41, video_tasks.py lines 68-71). -/
def voiceIdOf : Option String → String
  | none => DEFAULT_VOICE_ID
  | some v => pyStrip v

/- ### processing.py: _text_to_audio (synchronous variant) -/

/-- Model of processing.py _text_to_audio (lines 18-50).  A missing desc.txt
raises FileNotFoundError which the function catches (skip, no error); empty
stripped text skips; the moderation checks raise ValueError; a False return
from text_to_speech_file raises RuntimeError; an ApiError raised at the
convert call propagates uncaught. -/
def textToAudioSync (inp : JobInput) (st : JobState) :
    Except PyExc Unit × JobState :=
  match inp.descFile with
  | none => (.ok (), st)
  | some raw =>
    let text := pyStrip raw
    if text = "" then (.ok (), st)
    else
      let st := { st with moderatedTexts := st.moderatedTexts ++ [text] }
      match moderate inp.profane text with
      | .tooLong => (.error (.valueError tooLongMsg), st)
      | .profaneContent => (.error (.valueError profaneMsg), st)
      | .allowed =>
        let voiceId := voiceIdOf inp.voiceFile
        match text_to_speech_file text voiceId inp.synthStream st with
        | (.error e, st) => (.error e, st)
        | (.ok true, st) => (.ok (), st)
        | (.ok false, st) => (.error (.runtimeError synthFailedMsg), st)

/- ### video_tasks.py: _text_to_audio (asynchronous variant) -/

/-- Model of video_tasks.py _text_to_audio (lines 47-80).  Identical to the
synchronous variant except that it communicates success as a returned
boolean: the skip cases return True, and the result of text_to_speech_file
is returned as-is instead of raising RuntimeError on False. -/
def textToAudioAsync (inp : JobInput) (st : JobState) :
    Except PyExc Bool × JobState :=
  match inp.descFile with
  | none => (.ok true, st)
  | some raw =>
    let text := pyStrip raw
    if text = "" then (.ok true, st)
    else
      let st := { st with moderatedTexts := st.moderatedTexts ++ [text] }
      match moderate inp.profane text with
      | .tooLong => (.error (.valueError tooLongMsg), st)
      | .profaneContent => (.error (.valueError profaneMsg), st)
      | .allowed =>
        let voiceId := voiceIdOf inp.voiceFile
        text_to_speech_file text voiceId inp.synthStream st

/- ### _create_reel and _create_thumbnail (identical in both sources) -/

/-- The command _create_reel builds for a given input and current state:
the narration input is present exactly when audio.mp3 exists on disk at this
point, and the music input when the music.* glob found a file. -/
def reelCommandOf (inp : JobInput) (st : JobState) : List String :=
  create_reel_command (inputTxtPath inp.jobId) (audioMp3Path inp.jobId)
    (inp.musicFile.map (musicPathStr inp.jobId)) st.audioFile.isSome
    (inp.musicFile.map (musicPathStr inp.jobId)).isSome
    (outputMp4Path inp.jobId)

/-- Model of _create_reel (processing.py lines 53-99, video_tasks.py lines
83-141): build the command, run it; success writes the video artifact, a
non-zero exit raises CalledProcessError (with the captured stderr attached),
a launch failure raises OSError. -/
def createReel (inp : JobInput) (st : JobState) :
    Except PyExc Unit × JobState :=
  let command := reelCommandOf inp st
  let st := { st with renderCalls := st.renderCalls ++ [command] }
  match inp.renderResult with
  | .success => (.ok (), { st with videoArtifact := true })
  | .nonzeroExit rc err => (.error (.calledProcessError command rc err), st)
  | .launchFailure m => (.error (.osError m), st)

/-- Model of _create_thumbnail (processing.py lines 102-116, video_tasks.py
lines 144-159): on success the thumbnail artifact appears; a non-zero exit
raises CalledProcessError, which the except clause catches and only logs;
but a failure to launch the process raises OSError, which the except clause
does not cover, so it propagates to the orchestrator. -/
def createThumbnail (inp : JobInput) (st : JobState) :
    Except PyExc Unit × JobState :=
  let st := { st with thumbCalls := st.thumbCalls + 1 }
  match inp.thumbResult with
  | .success => (.ok (), { st with thumbArtifact := true })
  | .nonzeroExit _ => (.ok (), st)
  | .launchFailure m => (.error (.osError m), st)

/-- The cleanup block shared by both orchestrators: if the job directory is
present, shutil.rmtree removes it (together with the audio artifact inside
it); any exception from the removal is caught and only logged. -/
def cleanup (inp : JobInput) (st : JobState) : JobState :=
  if st.jobDirExists then
    if inp.cleanupOk then { st with jobDirExists := false, audioFile := none }
    else st
  else st

/- ### The two orchestrators -/

/-- Which pipeline step a failure arose from. -/
inductive Stage
  | audio
  | composition
  | thumbnail
deriving Repr, DecidableEq

/-- Outcome of the synchronous path: generate_video either returns normally
or re-raises the exception of the failing step (after logging it). -/
inductive SyncOutcome
  | succeeded
  | failed (stage : Stage) (exc : PyExc)
deriving Repr, DecidableEq

/-- Model of processing.py generate_video (lines 118-150): run the three
steps in order; any exception is logged and re-raised; the cleanup block runs
in a finally clause on every path and its own failures are swallowed. -/
def generate_video (inp : JobInput) (st0 : JobState) :
    SyncOutcome × JobState :=
  match textToAudioSync inp st0 with
  | (.error e, st1) => (.failed .audio e, cleanup inp st1)
  | (.ok _, st1) =>
    match createReel inp st1 with
    | (.error e, st2) => (.failed .composition e, cleanup inp st2)
    | (.ok _, st2) =>
      match createThumbnail inp st2 with
      | (.error e, st3) => (.failed .thumbnail e, cleanup inp st3)
      | (.ok _, st3) => (.succeeded, cleanup inp st3)

/-- Outcome of the asynchronous task: Complete with progress 100, or a
FAILURE state whose meta carries str(e) (or a fixed fallback when that is
empty) before the exception is re-raised to Celery. -/
inductive TaskOutcome
  | complete
  | failed (stage : Stage) (message : String)
deriving Repr, DecidableEq

/-- Fallback failure message of process_video_task when str(e) is empty. -/
def unknownErrMsg : String := "An unknown error occurred."

/-- The message placed in the FAILURE state meta of process_video_task. -/
def metaMessage (e : PyExc) : String :=
  let s := pyExcStr e
  if s = "" then unknownErrMsg else s

/-- Model of video_tasks.py process_video_task (lines 163-221): the audio
helper is called but its returned boolean is ignored, so only a raised
exception stops the pipeline; on success the cleanup block runs and the task
returns Complete; on an exception the FAILURE state is reported, the cleanup
block runs, and the exception is re-raised. -/
def process_video_task (inp : JobInput) (st0 : JobState) :
    TaskOutcome × JobState :=
  match textToAudioAsync inp st0 with
  | (.error e, st1) => (.failed .audio (metaMessage e), cleanup inp st1)
  | (.ok _, st1) =>
    match createReel inp st1 with
    | (.error e, st2) => (.failed .composition (metaMessage e), cleanup inp st2)
    | (.ok _, st2) =>
      match createThumbnail inp st2 with
      | (.error e, st3) => (.failed .thumbnail (metaMessage e), cleanup inp st3)
      | (.ok _, st3) => (.complete, cleanup inp st3)

/- ### Concrete jobs used by the claim theorems -/

/-- A job whose narration is clean text but whose TTS stream fails
immediately (ApiError raised during iteration, before any chunk). -/
def c2Input : JobInput :=
  { jobId := "job2", descFile := some "Hello world", voiceFile := none,
    musicFile := none, profane := fun _ => false,
    synthStream := .ok [.apiError],
    renderResult := .success, thumbResult := .success, cleanupOk := true }

/-- A job whose TTS stream writes one chunk and then raises ApiError. -/
def c3Input : JobInput :=
  { jobId := "job3", descFile := some "Hello", voiceFile := none,
    musicFile := none, profane := fun _ => false,
    synthStream := .ok [.data "ab", .apiError],
    renderResult := .success, thumbResult := .success, cleanupOk := true }

/-- A job with a clean narration and a present but blank voice.txt. -/
def c9Input : JobInput :=
  { jobId := "job9", descFile := some "Hello", voiceFile := some " ",
    musicFile := none, profane := fun _ => false,
    synthStream := .ok [.data "x"],
    renderResult := .success, thumbResult := .success, cleanupOk := true }

/-- A narration-less, music-less job whose render exits non-zero with a
distinctive diagnostic on stderr. -/
def c8Input : JobInput :=
  { jobId := "jobc8", descFile := none, voiceFile := none,
    musicFile := none, profane := fun _ => false,
    synthStream := .ok [],
    renderResult := .nonzeroExit 1 "diagxyz", thumbResult := .success, cleanupOk := true }

/-- The rendering command _create_reel builds for c8Input. -/
def c8Command : List String :=
  create_reel_command (inputTxtPath "jobc8") (audioMp3Path "jobc8") none
    false false (outputMp4Path "jobc8")

/-- The concrete boundary job: a narration of 1501 letters a. -/
def c5Input : JobInput :=
  { jobId := "job5", descFile := some (mkA 1501), voiceFile := none,
    musicFile := none, profane := fun _ => false,
    synthStream := .ok [.data "x"], renderResult := .success,
    thumbResult := .success, cleanupOk := true }

/- ### Claim C6: empty narration skips the audio stage -/

/-- The state right after a successful render on a silent job: the command
trace holds the one render invocation and the video artifact exists. -/
def c6ReelState (inp : JobInput) : JobState :=
  { initState with
    videoArtifact := true
    renderCalls := [reelCommandOf inp initState] }

/-- A concrete job whose desc.txt holds only whitespace. -/
def c6Input : JobInput :=
  { jobId := "job6", descFile := some "   ", voiceFile := none,
    musicFile := none, profane := fun _ => false,
    synthStream := .ok [], renderResult := .success,
    thumbResult := .success, cleanupOk := true }

/-- The job state after a successful render. -/
def postReelState (inp : JobInput) (st : JobState) : JobState :=
  { st with
    videoArtifact := true
    renderCalls := st.renderCalls ++ [reelCommandOf inp st] }

/-- A job with no narration, a successful render, and a thumbnail command
that exits non-zero (the caught failure kind). -/
def c7Input : JobInput :=
  { jobId := "job7", descFile := none, voiceFile := none,
    musicFile := none, profane := fun _ => false,
    synthStream := .ok [], renderResult := .success,
    thumbResult := .nonzeroExit "thumb-err", cleanupOk := true }

/-- A job with no narration, a successful render, and a thumbnail command
that fails to launch (raising OSError, which is not caught). -/
def c7FailInput : JobInput :=
  { jobId := "job7f", descFile := none, voiceFile := none,
    musicFile := none, profane := fun _ => false,
    synthStream := .ok [], renderResult := .success,
    thumbResult := .launchFailure "exec format error", cleanupOk := true }

/-- The job state after the rendering command has been recorded. -/
def postRenderCallState (inp : JobInput) (st : JobState) : JobState :=
  { st with renderCalls := st.renderCalls ++ [reelCommandOf inp st] }

/- ### Claim C3, amended -/

/-- The state left by a synchronous audio step whose TTS stream fails
mid-write: moderation and synthesis were invoked, and the destination holds
exactly the chunks written before the error. -/
def c3AudioState (inp : JobInput) (raw : String) (items : List StreamItem) : JobState :=
  { initState with
    audioFile := some (runWriteLoop items "").1
    moderatedTexts := [pyStrip raw]
    synthCalls := [(pyStrip raw, voiceIdOf inp.voiceFile)] }

/-- A job with a clean narration and voice.txt holding padded text. -/
def c9WitnessInput : JobInput :=
  { jobId := "job9w", descFile := some "Hello", voiceFile := some " VoiceX ",
    musicFile := none, profane := fun _ => false,
    synthStream := .ok [.data "x"],
    renderResult := .success, thumbResult := .success, cleanupOk := true }

/- ### Claim C10: moderation runs on the stripped narration text -/

/-- Whether the audio step failed with one of the two moderation
ValueErrors (no other ValueError arises in the audio step). -/
def isModerationError : Except PyExc Unit → Bool
  | .error (.valueError _) => true
  | _ => false

/-- A narration of 1500 letters a padded with one trailing space: its raw
length 1501 exceeds the bound only because of the whitespace. -/
def c10Raw : String := mkA 1500 ++ " "

/-- The concrete padded-narration job for claim C10. -/
def c10Input : JobInput :=
  { jobId := "job10", descFile := some c10Raw, voiceFile := none,
    musicFile := none, profane := fun _ => false,
    synthStream := .ok [.data "x"],
    renderResult := .success, thumbResult := .success, cleanupOk := true }

/-- Claim C1: for every combination of the two booleans, the rendering command
built by the composition step equals the four-case command described by the
spec (a pure function of the two booleans besides the fixed paths), and it
always contains the shortest-input cap. -/
theorem c1_composition_plan_matches_spec
    (it ap m out : String) (hv hm : Bool) :
    create_reel_command it ap (some m) hv hm out = specCommand it ap (some m) hv hm out
    ∧ create_reel_command it ap none hv hm out = specCommand it ap none hv false out
    ∧ "-shortest" ∈ create_reel_command it ap (some m) hv hm out := by
  cases hv <;> cases hm <;>
    refine ⟨rfl, rfl, ?_⟩ <;>
    simp [create_reel_command, video_filter, mixed_audio_filter, music_only_filter]

/- ### Preservation lemmas shared by the claim proofs -/

/-- The cleanup block only touches the job directory and its contents. -/
theorem cleanup_preserves (inp : JobInput) (st : JobState) :
    (cleanup inp st).videoArtifact = st.videoArtifact
    ∧ (cleanup inp st).thumbArtifact = st.thumbArtifact
    ∧ (cleanup inp st).moderatedTexts = st.moderatedTexts
    ∧ (cleanup inp st).synthCalls = st.synthCalls
    ∧ (cleanup inp st).renderCalls = st.renderCalls
    ∧ (cleanup inp st).thumbCalls = st.thumbCalls := by
  unfold cleanup
  by_cases h1 : st.jobDirExists <;> by_cases h2 : inp.cleanupOk <;> simp [h1, h2]

/-- When cleanup succeeds, the job directory is gone afterwards. -/
theorem cleanup_dir_gone (inp : JobInput) (st : JobState)
    (h : inp.cleanupOk = true) : (cleanup inp st).jobDirExists = false := by
  unfold cleanup
  by_cases h1 : st.jobDirExists <;> simp [h1, h]

/-- The audio step only touches the audio artifact and the moderation and
synthesis traces. -/
theorem audioSync_preserves (inp : JobInput) (st : JobState) :
    (textToAudioSync inp st).2.jobDirExists = st.jobDirExists
    ∧ (textToAudioSync inp st).2.videoArtifact = st.videoArtifact
    ∧ (textToAudioSync inp st).2.thumbArtifact = st.thumbArtifact
    ∧ (textToAudioSync inp st).2.renderCalls = st.renderCalls
    ∧ (textToAudioSync inp st).2.thumbCalls = st.thumbCalls := by
  unfold textToAudioSync text_to_speech_file
  rcases hd : inp.descFile with _ | raw
  · simp
  · by_cases he : pyStrip raw = ""
    · simp [he]
    · cases hm : moderate inp.profane (pyStrip raw) <;> simp only [he, hm, if_neg, ite_false]
      · cases hs : inp.synthStream with
        | error m => simp [hs]
        | ok items =>
            cases hb : (runWriteLoop items "").2 <;> simp [hs, hb]
      · simp
      · simp

/-- The rendering step only touches the video artifact and the render trace. -/
theorem createReel_preserves (inp : JobInput) (st : JobState) :
    (createReel inp st).2.jobDirExists = st.jobDirExists
    ∧ (createReel inp st).2.audioFile = st.audioFile
    ∧ (createReel inp st).2.thumbArtifact = st.thumbArtifact
    ∧ (createReel inp st).2.moderatedTexts = st.moderatedTexts
    ∧ (createReel inp st).2.synthCalls = st.synthCalls
    ∧ (createReel inp st).2.thumbCalls = st.thumbCalls := by
  unfold createReel
  cases hr : inp.renderResult <;> simp [hr]

/-- The thumbnail step only touches the thumbnail artifact and its trace. -/
theorem createThumbnail_preserves (inp : JobInput) (st : JobState) :
    (createThumbnail inp st).2.jobDirExists = st.jobDirExists
    ∧ (createThumbnail inp st).2.audioFile = st.audioFile
    ∧ (createThumbnail inp st).2.videoArtifact = st.videoArtifact
    ∧ (createThumbnail inp st).2.moderatedTexts = st.moderatedTexts
    ∧ (createThumbnail inp st).2.synthCalls = st.synthCalls
    ∧ (createThumbnail inp st).2.renderCalls = st.renderCalls := by
  unfold createThumbnail
  cases ht : inp.thumbResult <;> simp

/-- When the thumbnail invocation does not raise, the step returns normally
as a full pair equation. -/
theorem createThumbnail_ok (inp : JobInput) (st : JobState)
    (h : thumbRaises inp.thumbResult = false) :
    createThumbnail inp st = (.ok (), (createThumbnail inp st).2) := by
  unfold createThumbnail
  cases ht : inp.thumbResult with
  | success => rfl
  | nonzeroExit err => rfl
  | launchFailure m =>
    rw [ht] at h
    simp [thumbRaises] at h

/-- The thumbnail step does not read the cleanup oracle. -/
theorem createThumbnail_cleanupOk (inp : JobInput) (b : Bool) (st : JobState) :
    createThumbnail { inp with cleanupOk := b } st = createThumbnail inp st := rfl

/-- Cleanup never creates an audio artifact. -/
theorem cleanup_audioFile_none (inp : JobInput) (st : JobState)
    (h : st.audioFile = none) : (cleanup inp st).audioFile = none := by
  unfold cleanup
  by_cases h1 : st.jobDirExists <;> by_cases h2 : inp.cleanupOk <;> simp [h1, h2, h]

/-- Claim C2: the synchronous and asynchronous execution paths do NOT agree
on a speech-synthesis failure.  On a job whose TTS stream fails, the
synchronous generate_video raises RuntimeError and the job fails at the
audio stage, while process_video_task ignores the False returned by its
audio helper and runs to Complete. -/
theorem c2_sync_async_divergence :
    (generate_video c2Input initState).1 = .failed .audio (.runtimeError synthFailedMsg)
    ∧ (process_video_task c2Input initState).1 = .complete := by
  exact ⟨rfl, rfl⟩

/-- Claim C3, counterexample: when the TTS stream fails after one chunk,
text_to_speech_file reports failure but the destination file still holds the
partially written chunk — a partial artifact remains at the destination, so
the claim as stated is false; the synchronous job does fail at the audio
stage. -/
theorem c3_partial_artifact_counterexample :
    (text_to_speech_file "Hello" DEFAULT_VOICE_ID (.ok [.data "ab", .apiError]) initState).1
      = .ok false
    ∧ (text_to_speech_file "Hello" DEFAULT_VOICE_ID (.ok [.data "ab", .apiError]) initState).2.audioFile
      = some "ab"
    ∧ some "ab" ≠ (none : Option String)
    ∧ (generate_video c3Input initState).1 = .failed .audio (.runtimeError synthFailedMsg) := by
  refine ⟨rfl, rfl, by decide, rfl⟩

/-- Claim C9, counterexample: a present but blank voice.txt does not fall
back to the default voice — synthesis is invoked with the empty string as
voice id, which is neither the default voice id nor the supplied content. -/
theorem c9_blank_voice_file_counterexample :
    (generate_video c9Input initState).2.synthCalls = [("Hello", "")]
    ∧ ("" : String) ≠ DEFAULT_VOICE_ID
    ∧ ("" : String) ≠ " " := by
  refine ⟨rfl, by decide, by decide⟩

set_option maxRecDepth 8000 in
/-- Claim C8, counterexample: when the render exits non-zero, the job fails
at the composition stage with no thumbnail attempted, but the caller-visible
failure message is str(CalledProcessError) — the command and the exit status
— and does NOT contain the captured diagnostic output of the tool, so the
claim as stated is false. -/
theorem c8_stderr_not_in_message_counterexample :
    (process_video_task c8Input initState).1
      = .failed .composition (metaMessage (.calledProcessError c8Command 1 "diagxyz"))
    ∧ strContainsSub (metaMessage (.calledProcessError c8Command 1 "diagxyz")) "diagxyz" = false
    ∧ (process_video_task c8Input initState).2.thumbCalls = 0 := by
  refine ⟨rfl, by decide, rfl⟩

/-- The synthesis-invocation trace of a full run is the trace left by the
audio step: no later step invokes synthesis. -/
theorem generate_video_synthCalls (i : JobInput) (s : JobState) :
    (generate_video i s).2.synthCalls = (textToAudioSync i s).2.synthCalls := by
  unfold generate_video
  rcases h1 : textToAudioSync i s with ⟨r1, st1⟩
  cases r1 with
  | error e => exact (cleanup_preserves i st1).2.2.2.1
  | ok u =>
    dsimp only
    rcases h2 : createReel i st1 with ⟨r2, st2⟩
    have hcr := (createReel_preserves i st1).2.2.2.2.1
    rw [h2] at hcr
    cases r2 with
    | error e => rw [(cleanup_preserves i st2).2.2.2.1, hcr]
    | ok v =>
      dsimp only
      rcases h3 : createThumbnail i st2 with ⟨r3, st3⟩
      have hct := (createThumbnail_preserves i st2).2.2.2.2.1
      rw [h3] at hct
      cases r3 with
      | error e => rw [(cleanup_preserves i st3).2.2.2.1, hct, hcr]
      | ok w => rw [(cleanup_preserves i st3).2.2.2.1, hct, hcr]

/-- The moderation trace of a full run is the trace left by the audio step:
no later step evaluates moderation. -/
theorem generate_video_moderatedTexts (i : JobInput) (s : JobState) :
    (generate_video i s).2.moderatedTexts = (textToAudioSync i s).2.moderatedTexts := by
  unfold generate_video
  rcases h1 : textToAudioSync i s with ⟨r1, st1⟩
  cases r1 with
  | error e => exact (cleanup_preserves i st1).2.2.1
  | ok u =>
    dsimp only
    rcases h2 : createReel i st1 with ⟨r2, st2⟩
    have hcr := (createReel_preserves i st1).2.2.2.1
    rw [h2] at hcr
    cases r2 with
    | error e => rw [(cleanup_preserves i st2).2.2.1, hcr]
    | ok v =>
      dsimp only
      rcases h3 : createThumbnail i st2 with ⟨r3, st3⟩
      have hct := (createThumbnail_preserves i st2).2.2.2.1
      rw [h3] at hct
      cases r3 with
      | error e => rw [(cleanup_preserves i st3).2.2.1, hct, hcr]
      | ok w => rw [(cleanup_preserves i st3).2.2.1, hct, hcr]

/- ### Claim C4: cleanup always runs and never changes the outcome -/

/-- The audio step does not read the cleanup oracle. -/
theorem textToAudioSync_cleanupOk (inp : JobInput) (b : Bool) (st : JobState) :
    textToAudioSync { inp with cleanupOk := b } st = textToAudioSync inp st := rfl

/-- The asynchronous audio step does not read the cleanup oracle. -/
theorem textToAudioAsync_cleanupOk (inp : JobInput) (b : Bool) (st : JobState) :
    textToAudioAsync { inp with cleanupOk := b } st = textToAudioAsync inp st := rfl

/-- The rendering step does not read the cleanup oracle. -/
theorem createReel_cleanupOk (inp : JobInput) (b : Bool) (st : JobState) :
    createReel { inp with cleanupOk := b } st = createReel inp st := rfl

/-- The outcome of generate_video is decided before the cleanup block runs:
it is a function of the step results alone. -/
theorem generate_video_fst (i : JobInput) (s : JobState) :
    (generate_video i s).1 =
      (match textToAudioSync i s with
      | (.error e, _) => .failed .audio e
      | (.ok _, st1) =>
        match createReel i st1 with
        | (.error e, _) => .failed .composition e
        | (.ok _, st2) =>
          match createThumbnail i st2 with
          | (.error e, _) => .failed .thumbnail e
          | (.ok _, _) => .succeeded) := by
  unfold generate_video
  rcases h1 : textToAudioSync i s with ⟨r1, st1⟩
  cases r1 with
  | error e => rfl
  | ok u =>
    dsimp only
    rcases h2 : createReel i st1 with ⟨r2, st2⟩
    cases r2 with
    | error e => rfl
    | ok v =>
      dsimp only
      rcases h3 : createThumbnail i st2 with ⟨r3, st3⟩
      cases r3 <;> rfl

/-- The outcome of process_video_task is decided before the cleanup block
runs: it is a function of the step results alone. -/
theorem process_video_task_fst (i : JobInput) (s : JobState) :
    (process_video_task i s).1 =
      (match textToAudioAsync i s with
      | (.error e, _) => .failed .audio (metaMessage e)
      | (.ok _, st1) =>
        match createReel i st1 with
        | (.error e, _) => .failed .composition (metaMessage e)
        | (.ok _, st2) =>
          match createThumbnail i st2 with
          | (.error e, _) => .failed .thumbnail (metaMessage e)
          | (.ok _, _) => .complete) := by
  unfold process_video_task
  rcases h1 : textToAudioAsync i s with ⟨r1, st1⟩
  cases r1 with
  | error e => rfl
  | ok u =>
    dsimp only
    rcases h2 : createReel i st1 with ⟨r2, st2⟩
    cases r2 with
    | error e => rfl
    | ok v =>
      dsimp only
      rcases h3 : createThumbnail i st2 with ⟨r3, st3⟩
      cases r3 <;> rfl

/-- When the removal succeeds, generate_video leaves no job directory. -/
theorem generate_video_dir_gone (i : JobInput) (hi : i.cleanupOk = true)
    (s : JobState) : (generate_video i s).2.jobDirExists = false := by
  unfold generate_video
  rcases h1 : textToAudioSync i s with ⟨r1, st1⟩
  cases r1 with
  | error e => exact cleanup_dir_gone i st1 hi
  | ok u =>
    dsimp only
    rcases h2 : createReel i st1 with ⟨r2, st2⟩
    cases r2 with
    | error e => exact cleanup_dir_gone i st2 hi
    | ok v =>
      dsimp only
      rcases h3 : createThumbnail i st2 with ⟨r3, st3⟩
      cases r3 with
      | error e => exact cleanup_dir_gone i st3 hi
      | ok w => exact cleanup_dir_gone i st3 hi

/-- When the removal succeeds, process_video_task leaves no job directory. -/
theorem process_video_task_dir_gone (i : JobInput) (hi : i.cleanupOk = true)
    (s : JobState) : (process_video_task i s).2.jobDirExists = false := by
  unfold process_video_task
  rcases h1 : textToAudioAsync i s with ⟨r1, st1⟩
  cases r1 with
  | error e => exact cleanup_dir_gone i st1 hi
  | ok u =>
    dsimp only
    rcases h2 : createReel i st1 with ⟨r2, st2⟩
    cases r2 with
    | error e => exact cleanup_dir_gone i st2 hi
    | ok v =>
      dsimp only
      rcases h3 : createThumbnail i st2 with ⟨r3, st3⟩
      cases r3 with
      | error e => exact cleanup_dir_gone i st3 hi
      | ok w => exact cleanup_dir_gone i st3 hi

/-- Claim C4: for every job and every prior state, both orchestrators leave
no job directory behind when the removal succeeds, and the job outcome is
the same whether the cleanup succeeds or fails — a cleanup failure is
swallowed and never changes the already-determined outcome. -/
theorem c4_cleanup_always_runs (inp : JobInput) (st0 : JobState) :
    (generate_video { inp with cleanupOk := true } st0).2.jobDirExists = false
    ∧ (process_video_task { inp with cleanupOk := true } st0).2.jobDirExists = false
    ∧ (generate_video { inp with cleanupOk := true } st0).1
        = (generate_video { inp with cleanupOk := false } st0).1
    ∧ (process_video_task { inp with cleanupOk := true } st0).1
        = (process_video_task { inp with cleanupOk := false } st0).1 := by
  refine ⟨generate_video_dir_gone _ rfl st0, process_video_task_dir_gone _ rfl st0, ?_, ?_⟩
  · rw [generate_video_fst, generate_video_fst,
      textToAudioSync_cleanupOk inp true st0, textToAudioSync_cleanupOk inp false st0]
    rcases h1 : textToAudioSync inp st0 with ⟨r1, st1⟩
    cases r1 with
    | error e => rfl
    | ok u =>
      dsimp only
      rw [createReel_cleanupOk inp true st1, createReel_cleanupOk inp false st1]
      rcases h2 : createReel inp st1 with ⟨r2, st2⟩
      cases r2 with
      | error e => rfl
      | ok v =>
        dsimp only
        rw [createThumbnail_cleanupOk inp true st2, createThumbnail_cleanupOk inp false st2]
  · rw [process_video_task_fst, process_video_task_fst,
      textToAudioAsync_cleanupOk inp true st0, textToAudioAsync_cleanupOk inp false st0]
    rcases h1 : textToAudioAsync inp st0 with ⟨r1, st1⟩
    cases r1 with
    | error e => rfl
    | ok u =>
      dsimp only
      rw [createReel_cleanupOk inp true st1, createReel_cleanupOk inp false st1]
      rcases h2 : createReel inp st1 with ⟨r2, st2⟩
      cases r2 with
      | error e => rfl
      | ok v =>
        dsimp only
        rw [createThumbnail_cleanupOk inp true st2, createThumbnail_cleanupOk inp false st2]

/- ### Claim C5: the 1500 / 1501 moderation boundary -/

/-- Helper: the length of mkA n is n. -/
theorem mkA_length (n : Nat) : (mkA n).length = n := by
  simp [mkA, String.length]

/-- Helper: dropWhile for whitespace leaves a run of letters a unchanged. -/
theorem dropWhile_replicate_a (n : Nat) :
    List.dropWhile pyIsSpace (List.replicate n 'a') = List.replicate n 'a' := by
  cases n with
  | zero => rfl
  | succ m =>
      have ha : pyIsSpace 'a' = false := by decide
      simp [List.replicate_succ, List.dropWhile_cons, ha]

/-- Helper: stripping a run of letters a changes nothing. -/
theorem pyStrip_mkA (n : Nat) : pyStrip (mkA n) = mkA n := by
  unfold pyStrip mkA
  rw [show (String.mk (List.replicate n 'a')).data = List.replicate n 'a' from rfl,
    dropWhile_replicate_a, List.reverse_replicate, dropWhile_replicate_a,
    List.reverse_replicate]

/-- Claim C5: moderation accepts narration of stripped length exactly 1500
(when the profanity classifier does not match) and rejects stripped length
1501 as too long, which fails the synchronous job at the audio stage with
the too-long ValueError. -/
theorem c5_moderation_boundary (pf : String → Bool) (t : String)
    (inp : JobInput) (raw : String) :
    (t.length = MAX_TEXT_LENGTH → pf t = false → moderate pf t = .allowed)
    ∧ (t.length = MAX_TEXT_LENGTH + 1 → moderate pf t = .tooLong)
    ∧ (inp.descFile = some raw → (pyStrip raw).length = MAX_TEXT_LENGTH + 1 →
        (generate_video inp initState).1 = .failed .audio (.valueError tooLongMsg)) := by
  refine ⟨?_, ?_, ?_⟩
  · intro h1 h2
    have hngt : ¬ MAX_TEXT_LENGTH < t.length := by rw [h1]; omega
    simp [moderate, hngt, h2]
  · intro h1
    have hgt : MAX_TEXT_LENGTH < t.length := by rw [h1]; omega
    simp [moderate, hgt]
  · intro hdesc hlen
    have hne : pyStrip raw ≠ "" := by
      intro he
      rw [he] at hlen
      simp [String.length] at hlen
    have hgt : MAX_TEXT_LENGTH < (pyStrip raw).length := by rw [hlen]; omega
    have hmod : moderate inp.profane (pyStrip raw) = .tooLong := by
      simp [moderate, hgt]
    have haudio : textToAudioSync inp initState
        = (.error (.valueError tooLongMsg),
           { initState with moderatedTexts := [pyStrip raw] }) := by
      simp [textToAudioSync, hdesc, hne, hmod, initState]
    rw [generate_video_fst, haudio]

/-- Witness for claim C5 at the concrete boundary inputs. -/
theorem c5_moderation_boundary_witness :
    moderate (fun _ => false) (mkA 1500) = .allowed
    ∧ moderate (fun _ => false) (mkA 1501) = .tooLong
    ∧ (generate_video c5Input initState).1 = .failed .audio (.valueError tooLongMsg) := by
  have h1 := c5_moderation_boundary (fun _ => false) (mkA 1500) c5Input (mkA 1501)
  have h2 := c5_moderation_boundary (fun _ => false) (mkA 1501) c5Input (mkA 1501)
  refine ⟨h1.1 ?_ rfl, h2.2.1 ?_, h2.2.2 rfl ?_⟩
  · rw [mkA_length]; rfl
  · rw [mkA_length]; rfl
  · rw [pyStrip_mkA, mkA_length]; rfl

/-- Claim C6: when desc.txt is absent, or present with only whitespace, the
audio stage is a no-op in both variants (no moderation evaluated, no
synthesis invoked, no audio artifact written, no error), and with a
successful render the job succeeds as a silent reel in both modes. -/
theorem c6_empty_narration_skips_audio (inp : JobInput)
    (h : inp.descFile = none ∨ ∃ raw, inp.descFile = some raw ∧ pyStrip raw = "") :
    textToAudioSync inp initState = (.ok (), initState)
    ∧ textToAudioAsync inp initState = (.ok true, initState)
    ∧ (inp.renderResult = .success →
        (generate_video inp initState).2.moderatedTexts = []
        ∧ (generate_video inp initState).2.synthCalls = []
        ∧ (generate_video inp initState).2.audioFile = none
        ∧ (generate_video inp initState).2.videoArtifact = true
        ∧ (thumbRaises inp.thumbResult = false →
            (generate_video inp initState).1 = .succeeded
            ∧ (process_video_task inp initState).1 = .complete)) := by
  have hs : textToAudioSync inp initState = (.ok (), initState) := by
    rcases h with hn | ⟨raw, hsome, he⟩
    · simp [textToAudioSync, hn]
    · simp [textToAudioSync, hsome, he]
  have ha : textToAudioAsync inp initState = (.ok true, initState) := by
    rcases h with hn | ⟨raw, hsome, he⟩
    · simp [textToAudioAsync, hn]
    · simp [textToAudioAsync, hsome, he]
  refine ⟨hs, ha, ?_⟩
  intro hr
  have hreel : createReel inp initState = (.ok (), c6ReelState inp) := by
    simp [createReel, hr, c6ReelState, initState]
  refine ⟨?_, ?_, ?_, ?_, ?_⟩
  · rw [generate_video_moderatedTexts, hs]
    rfl
  · rw [generate_video_synthCalls, hs]
    rfl
  · unfold generate_video
    rw [hs]
    dsimp only
    rw [hreel]
    dsimp only
    rcases h3 : createThumbnail inp (c6ReelState inp) with ⟨r3, st3⟩
    have hct := (createThumbnail_preserves inp (c6ReelState inp)).2.1
    rw [h3] at hct
    cases r3 <;> dsimp only <;>
      exact cleanup_audioFile_none inp st3 (by rw [hct]; rfl)
  · unfold generate_video
    rw [hs]
    dsimp only
    rw [hreel]
    dsimp only
    rcases h3 : createThumbnail inp (c6ReelState inp) with ⟨r3, st3⟩
    have hct := (createThumbnail_preserves inp (c6ReelState inp)).2.2.1
    rw [h3] at hct
    cases r3 <;> dsimp only <;> rw [(cleanup_preserves inp st3).1, hct] <;> rfl
  · intro hth
    have hthumbok := createThumbnail_ok inp (c6ReelState inp) hth
    constructor
    · unfold generate_video
      rw [hs]
      dsimp only
      rw [hreel]
      dsimp only
      rw [hthumbok]
    · unfold process_video_task
      rw [ha]
      dsimp only
      rw [hreel]
      dsimp only
      rw [hthumbok]

/-- Witness for claim C6 on a whitespace-only narration job. -/
theorem c6_empty_narration_skips_audio_witness :
    textToAudioSync c6Input initState = (.ok (), initState)
    ∧ (generate_video c6Input initState).1 = .succeeded
    ∧ (generate_video c6Input initState).2.synthCalls = [] := by
  have h := c6_empty_narration_skips_audio c6Input (Or.inr ⟨"   ", rfl, by decide⟩)
  exact ⟨h.1, ((h.2.2 rfl).2.2.2.2 rfl).1, (h.2.2 rfl).2.1⟩

/- ### Claim C7: thumbnail failure is non-fatal -/

/-- Whenever the synchronous audio step succeeds, the asynchronous audio
step returns without raising and leaves the same state (it only reports its
result as a boolean instead). -/
theorem asyncAudio_of_syncAudio_ok (inp : JobInput) (st : JobState)
    (h : (textToAudioSync inp st).1 = .ok ()) :
    ∃ b, textToAudioAsync inp st = (.ok b, (textToAudioSync inp st).2) := by
  unfold textToAudioSync at h ⊢
  unfold textToAudioAsync
  rcases hd : inp.descFile with _ | raw
  · exact ⟨true, rfl⟩
  · rw [hd] at h
    dsimp only at h ⊢
    by_cases he : pyStrip raw = ""
    · simp only [if_pos he]
      exact ⟨true, rfl⟩
    · simp only [if_neg he] at h ⊢
      cases hm : moderate inp.profane (pyStrip raw) with
      | allowed =>
        rw [hm] at h
        dsimp only at h ⊢
        rcases hts : text_to_speech_file (pyStrip raw) (voiceIdOf inp.voiceFile)
            inp.synthStream
            { st with moderatedTexts := st.moderatedTexts ++ [pyStrip raw] }
          with ⟨r, st2⟩
        cases r with
        | error e =>
          rw [hts] at h
          simp at h
        | ok b =>
          cases b with
          | true => exact ⟨true, rfl⟩
          | false =>
            rw [hts] at h
            simp at h
      | tooLong =>
        rw [hm] at h
        simp at h
      | profaneContent =>
        rw [hm] at h
        simp at h

/-- Claim C7, counterexample: a launch failure of the thumbnail command
after a successful render is not caught by _create_thumbnail (its except
clause covers only CalledProcessError), so the job fails at the thumbnail
step in both modes even though the video artifact was produced — the claim
that a thumbnail-extraction failure never fails the job is false. -/
theorem c7_thumbnail_launch_failure_counterexample :
    (generate_video c7FailInput initState).1
      = .failed .thumbnail (.osError "exec format error")
    ∧ (generate_video c7FailInput initState).1 ≠ .succeeded
    ∧ (generate_video c7FailInput initState).2.videoArtifact = true
    ∧ (process_video_task c7FailInput initState).1
      = .failed .thumbnail (metaMessage (.osError "exec format error")) := by
  refine ⟨rfl, by decide, rfl, rfl⟩

/-- Claim C7, amended: a thumbnail failure reported by the tool as a
non-zero exit after a successful render never fails the job — the
CalledProcessError is caught and only logged, the outcome is Succeeded with
the video artifact present and the thumbnail artifact absent, in both
modes; but a failure to launch the thumbnail process raises OSError, which
is not caught, and the job fails at the thumbnail step. -/
theorem c7_thumbnail_failure_amended (inp : JobInput) (err m : String)
    (haudio : (textToAudioSync inp initState).1 = .ok ())
    (hr : inp.renderResult = .success) :
    (inp.thumbResult = .nonzeroExit err →
      (generate_video inp initState).1 = .succeeded
      ∧ (generate_video inp initState).2.videoArtifact = true
      ∧ (generate_video inp initState).2.thumbArtifact = false
      ∧ (generate_video inp initState).2.thumbCalls = 1
      ∧ (process_video_task inp initState).1 = .complete)
    ∧ (inp.thumbResult = .launchFailure m →
      (generate_video inp initState).1 = .failed .thumbnail (.osError m)
      ∧ (process_video_task inp initState).1
          = .failed .thumbnail (metaMessage (.osError m))) := by
  have hpair : textToAudioSync inp initState
      = (.ok (), (textToAudioSync inp initState).2) := by
    rcases hx : textToAudioSync inp initState with ⟨r, s⟩
    dsimp only
    rw [hx] at haudio
    dsimp only at haudio
    rw [haudio]
  obtain ⟨b, hasync⟩ := asyncAudio_of_syncAudio_ok inp initState haudio
  have hreel : createReel inp (textToAudioSync inp initState).2
      = (.ok (), postReelState inp (textToAudioSync inp initState).2) := by
    simp [createReel, hr, postReelState]
  have hap := audioSync_preserves inp initState
  constructor
  · intro hth
    have hthumb : createThumbnail inp
          (postReelState inp (textToAudioSync inp initState).2)
        = (.ok (), (createThumbnail inp
            (postReelState inp (textToAudioSync inp initState).2)).2) := by
      apply createThumbnail_ok
      rw [hth]
      rfl
    have hgv : generate_video inp initState
        = (.succeeded, cleanup inp (createThumbnail inp
            (postReelState inp (textToAudioSync inp initState).2)).2) := by
      unfold generate_video
      rw [hpair]
      dsimp only
      rw [hreel]
      dsimp only
      rw [hthumb]
    have hpt : process_video_task inp initState
        = (.complete, cleanup inp (createThumbnail inp
            (postReelState inp (textToAudioSync inp initState).2)).2) := by
      unfold process_video_task
      rw [hasync]
      dsimp only
      rw [hreel]
      dsimp only
      rw [hthumb]
    rw [hgv, hpt]
    refine ⟨rfl, ?_, ?_, ?_, rfl⟩
    · rw [(cleanup_preserves _ _).1, (createThumbnail_preserves _ _).2.2.1]
      rfl
    · rw [(cleanup_preserves _ _).2.1]
      have h1 : (createThumbnail inp
            (postReelState inp (textToAudioSync inp initState).2)).2.thumbArtifact
          = (textToAudioSync inp initState).2.thumbArtifact := by
        simp [createThumbnail, hth, postReelState]
      rw [h1, hap.2.2.1]
      rfl
    · rw [(cleanup_preserves _ _).2.2.2.2.2]
      have h2 : (createThumbnail inp
            (postReelState inp (textToAudioSync inp initState).2)).2.thumbCalls
          = (textToAudioSync inp initState).2.thumbCalls + 1 := by
        simp [createThumbnail, hth, postReelState]
      rw [h2, hap.2.2.2.2]
      rfl
  · intro hth
    have hthumb : createThumbnail inp
          (postReelState inp (textToAudioSync inp initState).2)
        = (.error (.osError m), (createThumbnail inp
            (postReelState inp (textToAudioSync inp initState).2)).2) := by
      unfold createThumbnail
      rw [hth]
    have hgv : generate_video inp initState
        = (.failed .thumbnail (.osError m), cleanup inp (createThumbnail inp
            (postReelState inp (textToAudioSync inp initState).2)).2) := by
      unfold generate_video
      rw [hpair]
      dsimp only
      rw [hreel]
      dsimp only
      rw [hthumb]
    have hpt : process_video_task inp initState
        = (.failed .thumbnail (metaMessage (.osError m)),
           cleanup inp (createThumbnail inp
            (postReelState inp (textToAudioSync inp initState).2)).2) := by
      unfold process_video_task
      rw [hasync]
      dsimp only
      rw [hreel]
      dsimp only
      rw [hthumb]
    rw [hgv, hpt]
    exact ⟨rfl, rfl⟩

/-- Witness for the amended claim C7 at a concrete job whose thumbnail
command exits non-zero. -/
theorem c7_thumbnail_failure_amended_witness :
    (generate_video c7Input initState).1 = .succeeded
    ∧ (generate_video c7Input initState).2.videoArtifact = true
    ∧ (generate_video c7Input initState).2.thumbArtifact = false
    ∧ (generate_video c7Input initState).2.thumbCalls = 1
    ∧ (process_video_task c7Input initState).1 = .complete :=
  (c7_thumbnail_failure_amended c7Input "thumb-err" "" rfl rfl).1 rfl

/- ### Shared lemmas for the remaining claims -/

/-- A successful audio step as a full pair equation. -/
theorem audioSync_ok_pair (inp : JobInput) (st : JobState)
    (h : (textToAudioSync inp st).1 = .ok ()) :
    textToAudioSync inp st = (.ok (), (textToAudioSync inp st).2) := by
  rcases hx : textToAudioSync inp st with ⟨r, s⟩
  dsimp only
  rw [hx] at h
  dsimp only at h
  rw [h]

/-- Claim C3, amended: when the TTS stream fails during writing, the
synchronous job fails at the audio stage with the RuntimeError of the
adapter, but the destination file holds exactly the prefix of chunks written
before the error — the partial artifact is not removed by the adapter (only
the later job-directory cleanup deletes it). -/
theorem c3_synthesis_failure_amended (inp : JobInput) (raw : String)
    (items : List StreamItem)
    (hdesc : inp.descFile = some raw) (hne : pyStrip raw ≠ "")
    (hmod : moderate inp.profane (pyStrip raw) = .allowed)
    (hstream : inp.synthStream = .ok items)
    (hfail : (runWriteLoop items "").2 = false) :
    (generate_video inp initState).1 = .failed .audio (.runtimeError synthFailedMsg)
    ∧ (textToAudioSync inp initState).2.audioFile = some (runWriteLoop items "").1 := by
  have haudio : textToAudioSync inp initState
      = (.error (.runtimeError synthFailedMsg), c3AudioState inp raw items) := by
    simp [textToAudioSync, text_to_speech_file, hdesc, hne, hmod, hstream, hfail,
      c3AudioState, initState]
  refine ⟨?_, ?_⟩
  · rw [generate_video_fst, haudio]
  · rw [haudio]
    rfl

/-- Witness for the amended claim C3 at the concrete failing stream. -/
theorem c3_synthesis_failure_amended_witness :
    (generate_video c3Input initState).1 = .failed .audio (.runtimeError synthFailedMsg)
    ∧ (textToAudioSync c3Input initState).2.audioFile
        = some (runWriteLoop [.data "ab", .apiError] "").1 :=
  c3_synthesis_failure_amended c3Input "Hello" [.data "ab", .apiError]
    rfl (by decide) (by decide) rfl rfl

/- ### Claim C8, amended -/

/-- Claim C8, amended: when the rendering command exits non-zero or fails to
launch after a successful audio step, the job fails at the composition stage
in both modes and no thumbnail extraction is attempted; the raised error
carries the captured stderr, but the caller-visible message of the task is
str(CalledProcessError) — the command line and exit status — and is the same
whatever the captured diagnostic output was. -/
theorem c8_composition_failure_amended (inp : JobInput) (rc : Nat) (err m : String)
    (haudio : (textToAudioSync inp initState).1 = .ok ()) :
    (inp.renderResult = .nonzeroExit rc err →
      (generate_video inp initState).1 = .failed .composition
          (.calledProcessError (reelCommandOf inp (textToAudioSync inp initState).2) rc err)
      ∧ (generate_video inp initState).2.thumbCalls = 0
      ∧ (process_video_task inp initState).1 = .failed .composition
          (metaMessage (.calledProcessError
            (reelCommandOf inp (textToAudioSync inp initState).2) rc err)))
    ∧ (inp.renderResult = .launchFailure m →
      (generate_video inp initState).1 = .failed .composition (.osError m)
      ∧ (generate_video inp initState).2.thumbCalls = 0)
    ∧ (∀ (c : List String) (e1 e2 : String),
        pyExcStr (.calledProcessError c rc e1) = pyExcStr (.calledProcessError c rc e2)) := by
  obtain ⟨b, hasync⟩ := asyncAudio_of_syncAudio_ok inp initState haudio
  have hap := audioSync_preserves inp initState
  refine ⟨?_, ?_, fun c e1 e2 => rfl⟩
  · intro hrr
    have hreel : createReel inp (textToAudioSync inp initState).2
        = (.error (.calledProcessError
              (reelCommandOf inp (textToAudioSync inp initState).2) rc err),
           postRenderCallState inp (textToAudioSync inp initState).2) := by
      simp [createReel, hrr, postRenderCallState]
    have hgv : generate_video inp initState
        = (.failed .composition
            (.calledProcessError (reelCommandOf inp (textToAudioSync inp initState).2) rc err),
           cleanup inp (postRenderCallState inp (textToAudioSync inp initState).2)) := by
      unfold generate_video
      rw [audioSync_ok_pair inp initState haudio]
      dsimp only
      rw [hreel]
    have hpt : process_video_task inp initState
        = (.failed .composition
            (metaMessage (.calledProcessError
              (reelCommandOf inp (textToAudioSync inp initState).2) rc err)),
           cleanup inp (postRenderCallState inp (textToAudioSync inp initState).2)) := by
      unfold process_video_task
      rw [hasync]
      dsimp only
      rw [hreel]
    rw [hgv, hpt]
    refine ⟨rfl, ?_, rfl⟩
    rw [(cleanup_preserves _ _).2.2.2.2.2]
    have h2 : (postRenderCallState inp (textToAudioSync inp initState).2).thumbCalls
        = (textToAudioSync inp initState).2.thumbCalls := rfl
    rw [h2, hap.2.2.2.2]
    rfl
  · intro hlf
    have hreel : createReel inp (textToAudioSync inp initState).2
        = (.error (.osError m),
           postRenderCallState inp (textToAudioSync inp initState).2) := by
      simp [createReel, hlf, postRenderCallState]
    have hgv : generate_video inp initState
        = (.failed .composition (.osError m),
           cleanup inp (postRenderCallState inp (textToAudioSync inp initState).2)) := by
      unfold generate_video
      rw [audioSync_ok_pair inp initState haudio]
      dsimp only
      rw [hreel]
    rw [hgv]
    refine ⟨rfl, ?_⟩
    rw [(cleanup_preserves _ _).2.2.2.2.2]
    have h2 : (postRenderCallState inp (textToAudioSync inp initState).2).thumbCalls
        = (textToAudioSync inp initState).2.thumbCalls := rfl
    rw [h2, hap.2.2.2.2]
    rfl

/-- Witness for the amended claim C8 at the concrete failing render. -/
theorem c8_composition_failure_amended_witness :
    (generate_video c8Input initState).1 = .failed .composition
        (.calledProcessError (reelCommandOf c8Input (textToAudioSync c8Input initState).2) 1 "diagxyz")
    ∧ (generate_video c8Input initState).2.thumbCalls = 0
    ∧ (process_video_task c8Input initState).1 = .failed .composition
        (metaMessage (.calledProcessError
          (reelCommandOf c8Input (textToAudioSync c8Input initState).2) 1 "diagxyz")) :=
  (c8_composition_failure_amended c8Input 1 "diagxyz" "" rfl).1 rfl

/- ### Claim C9, amended -/

/-- Claim C9, amended: for every job with non-empty narration that passes
moderation, synthesis is invoked exactly once, with the stripped narration
text and with the stripped content of the voice-id file whenever that file
exists — even when blank, yielding the empty string rather than the default
— and with the fixed default voice id exactly when the file is absent. -/
theorem c9_voice_selection_amended (inp : JobInput) (raw : String)
    (hdesc : inp.descFile = some raw) (hne : pyStrip raw ≠ "")
    (hmod : moderate inp.profane (pyStrip raw) = .allowed) :
    (generate_video inp initState).2.synthCalls
      = [(pyStrip raw, voiceIdOf inp.voiceFile)]
    ∧ voiceIdOf none = DEFAULT_VOICE_ID
    ∧ (∀ v, voiceIdOf (some v) = pyStrip v) := by
  refine ⟨?_, rfl, fun v => rfl⟩
  rw [generate_video_synthCalls]
  unfold textToAudioSync
  rw [hdesc]
  dsimp only
  rw [if_neg hne, hmod]
  dsimp only
  unfold text_to_speech_file
  cases hs : inp.synthStream with
  | error msg => simp [initState]
  | ok items =>
    cases hb : (runWriteLoop items "").2 <;> simp [hb, initState]

/-- Witness for the amended claim C9 at a concrete job. -/
theorem c9_voice_selection_amended_witness :
    (generate_video c9WitnessInput initState).2.synthCalls
      = [(pyStrip "Hello", voiceIdOf c9WitnessInput.voiceFile)]
    ∧ voiceIdOf none = DEFAULT_VOICE_ID
    ∧ (∀ v, voiceIdOf (some v) = pyStrip v) :=
  c9_voice_selection_amended c9WitnessInput "Hello" rfl (by decide) (by decide)

/-- Claim C10: for every job with narration that is non-empty after
stripping, the moderation predicates are evaluated exactly once, on the
stripped text (so a raw text over 1500 characters only because of
surrounding whitespace is not rejected), and when the stripped text is
within the length bound and not profane the step raises no moderation
error. -/
theorem c10_moderation_on_stripped_text (inp : JobInput) (raw : String)
    (hdesc : inp.descFile = some raw) (hne : pyStrip raw ≠ "") :
    (generate_video inp initState).2.moderatedTexts = [pyStrip raw]
    ∧ ((pyStrip raw).length ≤ MAX_TEXT_LENGTH → inp.profane (pyStrip raw) = false →
        isModerationError (textToAudioSync inp initState).1 = false) := by
  constructor
  · rw [generate_video_moderatedTexts]
    unfold textToAudioSync
    rw [hdesc]
    dsimp only
    rw [if_neg hne]
    cases hm : moderate inp.profane (pyStrip raw) with
    | allowed =>
      dsimp only
      unfold text_to_speech_file
      cases hs : inp.synthStream with
      | error msg => simp [initState]
      | ok items =>
        cases hb : (runWriteLoop items "").2 <;> simp [hb, initState]
    | tooLong => simp [initState]
    | profaneContent => simp [initState]
  · intro hlen hpf
    have hmod : moderate inp.profane (pyStrip raw) = .allowed := by
      have hngt : ¬ MAX_TEXT_LENGTH < (pyStrip raw).length := not_lt.mpr hlen
      simp [moderate, hngt, hpf]
    unfold textToAudioSync
    rw [hdesc]
    dsimp only
    rw [if_neg hne, hmod]
    dsimp only
    unfold text_to_speech_file
    cases hs : inp.synthStream with
    | error msg => rfl
    | ok items =>
      cases hb : (runWriteLoop items "").2 <;> simp [hb, isModerationError]

set_option maxRecDepth 100000 in
/-- Witness for claim C10 at the padded 1501-character narration. -/
theorem c10_moderation_on_stripped_text_witness :
    (generate_video c10Input initState).2.moderatedTexts = [pyStrip c10Raw]
    ∧ isModerationError (textToAudioSync c10Input initState).1 = false := by
  have h := c10_moderation_on_stripped_text c10Input c10Raw rfl (by decide)
  exact ⟨h.1, h.2 (by decide) rfl⟩
